import Mathlib

/-!
Verification development for the booking-calendar component
(`src/pages/external_page/_components/booking-calendar.tsx`).

The component's pure logic is shallowly embedded here:
* `timeSlots` — the slot filter (source lines 61-73),
* `isDateUnavailable` — the date-availability predicate (source lines 77-91),
* `handleChangeDate` — the date-change handler (source lines 95-104),
* the render-level derivations `availabilityOf`, `render`, and the
  selected-slot display comparison `slotDisplayedSelected`
  (source lines 57, 108, 182-221).

Collaborators that live outside the given excerpt (`formatSlot` and
`decodeSlot` from `@/lib/helper`, the booking-state mutators from
`@/hooks/use-booking-state`) are modelled from the spec; each such
definition carries a doc comment saying so.

JavaScript dates are embedded as proleptic-Gregorian civil dates; the
composition `format(date.toDate(timezone), "EEEE").toUpperCase()` is
modelled as the weekday name of the civil date (the calendar date and the
active timezone agree on the civil day, so the weekday is a pure function
of the date).
-/

namespace BookingCalendar

/-- A `CalendarDate` from `@internationalized/date`: a civil date with no
time component (year ≥ 1, month 1-12, day 1-31). -/
structure CalendarDate where
  year : Nat
  month : Nat
  day : Nat
deriving Repr, DecidableEq

/-- One entry of the weekly availability schedule returned by the backend:
`{ day: "MONDAY", isAvailable: true, slots: ["09:00", "10:00"] }`. -/
structure DayAvailability where
  day : String
  isAvailable : Bool
  slots : List String
deriving Repr, DecidableEq

/-- The seven uppercase weekday names produced by
`format(d, "EEEE").toUpperCase()`, indexed Sunday-first. -/
def weekdayNames : List String :=
  ["SUNDAY", "MONDAY", "TUESDAY", "WEDNESDAY", "THURSDAY", "FRIDAY", "SATURDAY"]

/-- Gregorian leap-year test. -/
def isLeap (y : Nat) : Bool :=
  (y % 4 == 0 && y % 100 != 0) || y % 400 == 0

/-- Days in the months before month `m` of a non-leap year. -/
def monthOffset : Nat → Nat
  | 1 => 0
  | 2 => 31
  | 3 => 59
  | 4 => 90
  | 5 => 120
  | 6 => 151
  | 7 => 181
  | 8 => 212
  | 9 => 243
  | 10 => 273
  | 11 => 304
  | 12 => 334
  | _ => 0

/-- Rata-die day number of a civil date in the proleptic Gregorian
calendar: day 1 is January 1 of year 1 (a Monday). -/
def rataDie (d : CalendarDate) : Nat :=
  let n := d.year - 1
  (365 * n + n / 4 + n / 400) - n / 100
    + monthOffset d.month
    + (if d.month > 2 && isLeap d.year then 1 else 0)
    + d.day

/-- Sunday-first weekday name for a weekday index. -/
def weekdayName (n : Nat) : String :=
  weekdayNames.getD (n % 7) "SUNDAY"

/-- Models `format(date.toDate(timezone), "EEEE").toUpperCase()` from the
source: the uppercase English weekday name of the civil date.  The
`timezone` argument is carried to mirror the source signature; the weekday
of a civil date does not depend on it. -/
def dayOfWeekUpper (timezone : String) (date : CalendarDate) : String :=
  weekdayName (rataDie date)

/-- The slot filter, source lines 61-73:

    const timeSlots = selectedDate
      ? (() => {
          const dayOfWeek = format(selectedDate.toDate(timezone), "EEEE").toUpperCase();
          const dayAvailability = availability?.find(day => day.day === dayOfWeek);
          return dayAvailability?.slots || [];
        })()
      : [];
-/
def timeSlots (timezone : String) (availability : List DayAvailability)
    (selectedDate : Option CalendarDate) : List String :=
  match selectedDate with
  | some d =>
    let dayOfWeek := dayOfWeekUpper timezone d
    match availability.find? (fun day => day.day == dayOfWeek) with
    | some dayAvailability => dayAvailability.slots
    | none => []
  | none => []

/-- The date-availability predicate, source lines 77-91:

    const isDateUnavailable = (date) => {
      const dayOfWeek = format(date.toDate(timezone), "EEEE").toUpperCase();
      const dayAvailability = availability.find((day) => day.day === dayOfWeek);
      return !dayAvailability?.isAvailable;
    };
-/
def isDateUnavailable (timezone : String) (availability : List DayAvailability)
    (date : CalendarDate) : Bool :=
  let dayOfWeek := dayOfWeekUpper timezone date
  match availability.find? (fun day => day.day == dayOfWeek) with
  | some dayAvailability => !dayAvailability.isAvailable
  | none => true

/-- A decimal-digit value, `none` for a non-digit character. -/
def charDigit (c : Char) : Option Nat :=
  if c.isDigit then some (c.toNat - 48) else none

/-- Reads a nonempty all-digit character list as a decimal number. -/
def digitsToNat : List Char → Option Nat
  | [] => none
  | cs => cs.foldl
      (fun acc c =>
        match acc, charDigit c with
        | some n, some d => some (n * 10 + d)
        | _, _ => none)
      (some 0)

/-- Splits a character list at the first colon, `none` when no colon occurs. -/
def breakColon : List Char → Option (List Char × List Char)
  | [] => none
  | c :: cs =>
    if c = ':' then some ([], cs)
    else (breakColon cs).map (fun p => (c :: p.1, p.2))

/-- Parses a `"HH:MM"` time-of-day string into hour and minute. -/
def parseHM (s : String) : Option (Nat × Nat) :=
  match breakColon s.toList with
  | some (hcs, mcs) =>
    match digitsToNat hcs, digitsToNat mcs with
    | some h, some m => some (h, m)
    | _, _ => none
  | none => none

/-- Two-digit zero-padded decimal rendering. -/
def pad2 (n : Nat) : String :=
  if n < 10 then "0" ++ toString n else toString n

/-- Modelled from the spec: `formatSlot` lives in `@/lib/helper`, which is
not part of the excerpt.  The spec fixes its contract: it formats a
slot-start-time string for display given timezone and hour-format
preference, and for slots `"09:00"` and `"10:00"` with timezone UTC and
hour format `"12h"` it renders `"9:00 AM"` and `"10:00 AM"`.  The 12-hour
branch drops the leading zero of the hour and appends AM/PM; the 24-hour
branch keeps the zero-padded clock reading. -/
def formatSlot (slot : String) (timezone : String) (hourType : String) : String :=
  match parseHM slot with
  | some (h, m) =>
    if hourType == "12h" then
      let h12 := if h % 12 == 0 then 12 else h % 12
      let period := if h < 12 then "AM" else "PM"
      toString h12 ++ ":" ++ pad2 m ++ " " ++ period
    else
      pad2 h ++ ":" ++ pad2 m
  | none => slot

/-- Modelled from the spec: `decodeSlot` lives in `@/lib/helper`, which is
not part of the excerpt.  The spec describes the slot formatter
collaborator as encoding/decoding/formatting slot identifiers for display
given timezone and hour format; decoding the stored (encoded) selected
slot yields the same display string that `formatSlot` yields for the slot,
and an absent selected slot decodes to an absent display string. -/
def decodeSlot (slot : Option String) (timezone : String) (hourType : String) :
    Option String :=
  slot.map (fun s => formatSlot s timezone hourType)

/-- The slice of the externally owned wizard state that this component
reads and mutates: timezone, hour-format preference, selected date,
selected slot (source lines 25-34). -/
structure BookingState where
  timezone : String
  hourType : String
  selectedDate : Option CalendarDate
  selectedSlot : Option String
deriving Repr, DecidableEq

/-- Modelled from the spec: the booking-state mutator `handleSelectSlot`
from `@/hooks/use-booking-state` (not in the excerpt) stores the given
slot (or absence) as the selected slot. -/
def setSlot (st : BookingState) (s : Option String) : BookingState :=
  { st with selectedSlot := s }

/-- Modelled from the spec: the booking-state mutator `handleSelectDate`
from `@/hooks/use-booking-state` (not in the excerpt) stores the given
date as the selected date. -/
def setDate (st : BookingState) (d : CalendarDate) : BookingState :=
  { st with selectedDate := some d }

/-- Modelled from the spec: the booking-state mutator `setHourType` from
`@/hooks/use-booking-state` (not in the excerpt) stores the given
hour-format preference. -/
def setHourTypeState (st : BookingState) (h : String) : BookingState :=
  { st with hourType := h }

/-- The date-change handler, source lines 95-104: first clears any
previously selected slot, then updates the selected date.

    const handleChangeDate = (newDate) => {
      handleSelectSlot(null);
      handleSelectDate(newDate as CalendarDate);
    };
-/
def handleChangeDate (st : BookingState) (newDate : CalendarDate) : BookingState :=
  setDate (setSlot st none) newDate

/-- The UI events of this component that reach the booking state: a click
on a calendar date (source line 134), a click on a slot button (source
line 218), a click on one of the hour-format buttons (source lines
157 and 162), and the Next button (source line 202, which only advances
the wizard step). -/
inductive Event where
  | changeDate (d : CalendarDate)
  | clickSlot (s : String)
  | selectHourType (h : String)
  | next
deriving Repr, DecidableEq

/-- One step of the component's state machine: how each UI event updates
the booking state. -/
def step (st : BookingState) : Event → BookingState
  | .changeDate d => handleChangeDate st d
  | .clickSlot s => setSlot st (some s)
  | .selectHourType h => setHourTypeState st h
  | .next => st

/-- The result object this component reads from `useQuery` (source lines
38-41): the fetched data when resolved, and the error channel.  `data` is
`none` while the fetch is pending or has errored. -/
structure QueryState where
  data : Option (List DayAvailability)
  isError : Bool
  error : Option String
deriving Repr, DecidableEq

/-- Source line 57: `const availability = data?.data || [];` — the
schedule used for rendering, substituting the empty schedule while the
fetch is pending or errored. -/
def availabilityOf (q : QueryState) : List DayAvailability :=
  q.data.getD []

/-- Source line 108 and lines 182-221: a rendered slot is displayed as
selected (its Next overlay shown, its plain button hidden) exactly when
`selectedTime === formattedSlot`, i.e. when the decoded selected slot
equals this slot's formatted display string. -/
def slotDisplayedSelected (st : BookingState) (slot : String) : Bool :=
  decodeSlot st.selectedSlot st.timezone st.hourType ==
    some (formatSlot slot st.timezone st.hourType)

/-- The observable render output the claims speak about: what is passed to
the `ErrorAlert` collaborator (source line 233) and the labels of the slot
buttons rendered from `timeSlots` (source lines 171-225). -/
structure RenderOutput where
  errorAlertIsError : Bool
  errorAlertError : Option String
  slotButtonLabels : List String
deriving Repr, DecidableEq

/-- The component's render as a function of the query result and the
booking state. -/
def render (q : QueryState) (st : BookingState) : RenderOutput :=
  { errorAlertIsError := q.isError
    errorAlertError := q.error
    slotButtonLabels :=
      (timeSlots st.timezone (availabilityOf q) st.selectedDate).map
        (fun slot => formatSlot slot st.timezone st.hourType) }

/-! ### Helper lemmas -/

theorem weekdayName_mem (n : Nat) : weekdayName n ∈ weekdayNames := by
  have h7 : n % 7 < 7 := Nat.mod_lt _ (by decide)
  unfold weekdayName
  generalize n % 7 = k at h7 ⊢
  interval_cases k <;> decide

theorem dayOfWeekUpper_mem (tz : String) (d : CalendarDate) :
    dayOfWeekUpper tz d ∈ weekdayNames :=
  weekdayName_mem _

theorem find?_first {α : Type} (p : α → Bool) (pre post : List α) (e : α)
    (hpre : ∀ a ∈ pre, p a = false) (he : p e = true) :
    (pre ++ e :: post).find? p = some e := by
  induction pre with
  | nil => simpa using List.find?_cons_of_pos post he
  | cons a t ih =>
    have ha : p a = false := hpre a (List.mem_cons_self a t)
    rw [List.cons_append, List.find?_cons_of_neg _ (by simp [ha])]
    exact ih fun x hx => hpre x (List.mem_cons_of_mem a hx)

theorem timeSlots_of_find (tz : String) (avail : List DayAvailability)
    (d : CalendarDate) (e : DayAvailability)
    (h : avail.find? (fun a => a.day == dayOfWeekUpper tz d) = some e) :
    timeSlots tz avail (some d) = e.slots := by
  simp [timeSlots, h]

theorem timeSlots_of_find_none (tz : String) (avail : List DayAvailability)
    (d : CalendarDate)
    (h : avail.find? (fun a => a.day == dayOfWeekUpper tz d) = none) :
    timeSlots tz avail (some d) = [] := by
  simp [timeSlots, h]

theorem timeSlots_of_no_match (tz : String) (avail : List DayAvailability)
    (d : CalendarDate)
    (h : ∀ a ∈ avail, a.day ≠ dayOfWeekUpper tz d) :
    timeSlots tz avail (some d) = [] := by
  refine timeSlots_of_find_none tz avail d (List.find?_eq_none.mpr ?_)
  intro x hx
  simp [h x hx]

theorem isDateUnavailable_of_find (tz : String) (avail : List DayAvailability)
    (d : CalendarDate) (e : DayAvailability)
    (h : avail.find? (fun a => a.day == dayOfWeekUpper tz d) = some e) :
    isDateUnavailable tz avail d = !e.isAvailable := by
  simp [isDateUnavailable, h]

theorem isDateUnavailable_of_find_none (tz : String)
    (avail : List DayAvailability) (d : CalendarDate)
    (h : avail.find? (fun a => a.day == dayOfWeekUpper tz d) = none) :
    isDateUnavailable tz avail d = true := by
  simp [isDateUnavailable, h]

/-! ### Claim theorems -/

/-- C1: For every weekly schedule and every selected date, the slot filter
derives the weekday name of the date in the active timezone, linearly
searches the schedule for the first entry whose day equals that weekday,
and returns that entry's slots verbatim, in original order, with no
sorting or deduplication; it returns the empty sequence when no date is
selected or no entry matches.  Here `pre ++ e :: post` is any schedule
whose first entry for the date's weekday is `e` (everything in `pre`
names another day); the filter returns `e.slots` unchanged, whatever
`post` holds.  `avail2` and `avail3` exhibit the two empty cases. -/
theorem slot_filter_first_match_verbatim (tz : String) (d : CalendarDate)
    (pre post avail2 avail3 : List DayAvailability) (e : DayAvailability)
    (hpre : ∀ a ∈ pre, a.day ≠ dayOfWeekUpper tz d)
    (he : e.day = dayOfWeekUpper tz d)
    (hmiss : ∀ a ∈ avail3, a.day ≠ dayOfWeekUpper tz d) :
    timeSlots tz (pre ++ e :: post) (some d) = e.slots ∧
    timeSlots tz avail2 none = [] ∧
    timeSlots tz avail3 (some d) = [] := by
  refine ⟨?_, rfl, timeSlots_of_no_match tz avail3 d hmiss⟩
  refine timeSlots_of_find tz _ d e (find?_first _ pre post e ?_ (by simp [he]))
  intro a ha
  simp [hpre a ha]

/-- Witness for C1 at a concrete schedule: the Monday entry is found past
a Tuesday entry, its slots come back verbatim (unsorted, with a
duplicate), a later duplicate Monday entry is ignored, and the two empty
cases hold. -/
theorem slot_filter_first_match_verbatim_witness :
    timeSlots "UTC"
      ([⟨"TUESDAY", false, []⟩] ++
        ⟨"MONDAY", true, ["10:00", "09:00", "09:00"]⟩ ::
          [⟨"MONDAY", false, ["13:00"]⟩])
      (some ⟨2025, 1, 6⟩) = ["10:00", "09:00", "09:00"] ∧
    timeSlots "UTC" [⟨"MONDAY", true, ["10:00"]⟩] none = [] ∧
    timeSlots "UTC" [⟨"FRIDAY", true, ["10:00"]⟩] (some ⟨2025, 1, 6⟩) = [] :=
  slot_filter_first_match_verbatim "UTC" ⟨2025, 1, 6⟩
    [⟨"TUESDAY", false, []⟩] [⟨"MONDAY", false, ["13:00"]⟩]
    [⟨"MONDAY", true, ["10:00"]⟩] [⟨"FRIDAY", true, ["10:00"]⟩]
    ⟨"MONDAY", true, ["10:00", "09:00", "09:00"]⟩
    (by decide) (by decide) (by decide)

/-- C2 as stated is false on the code: the slot filter never consults
`isAvailable`.  January 6, 2025 is a Monday; with the schedule
`[{day: "MONDAY", isAvailable: false, slots: ["09:00"]}]` the filter
returns `["09:00"]`, not the empty sequence. -/
theorem slot_filter_unavailable_cex :
    timeSlots "UTC" [⟨"MONDAY", false, ["09:00"]⟩] (some ⟨2025, 1, 6⟩) =
      ["09:00"] ∧
    (["09:00"] : List String) ≠ [] :=
  ⟨by decide, by decide⟩

/-- C2 (amended): for a selected date whose first matching schedule entry
has `isAvailable = false`, the slot filter still returns that entry's
slots verbatim — it does not consult `isAvailable` — while the
date-availability predicate reports such a date as disabled, so the slot
list for it is never reachable through an enabled calendar date. -/
theorem slot_filter_unavailable_amended (tz : String) (d : CalendarDate)
    (pre post : List DayAvailability) (e : DayAvailability)
    (hpre : ∀ a ∈ pre, a.day ≠ dayOfWeekUpper tz d)
    (he : e.day = dayOfWeekUpper tz d)
    (hunavail : e.isAvailable = false) :
    timeSlots tz (pre ++ e :: post) (some d) = e.slots ∧
    isDateUnavailable tz (pre ++ e :: post) d = true := by
  have hfind : (pre ++ e :: post).find?
      (fun a => a.day == dayOfWeekUpper tz d) = some e := by
    refine find?_first _ pre post e ?_ (by simp [he])
    intro a ha
    simp [hpre a ha]
  refine ⟨timeSlots_of_find tz _ d e hfind, ?_⟩
  rw [isDateUnavailable_of_find tz _ d e hfind, hunavail]
  rfl

/-- Witness for the amended C2 at the counterexample's input. -/
theorem slot_filter_unavailable_amended_witness :
    timeSlots "UTC" ([] ++ ⟨"MONDAY", false, ["09:00"]⟩ :: [])
      (some ⟨2025, 1, 6⟩) = ["09:00"] ∧
    isDateUnavailable "UTC" ([] ++ ⟨"MONDAY", false, ["09:00"]⟩ :: [])
      ⟨2025, 1, 6⟩ = true :=
  slot_filter_unavailable_amended "UTC" ⟨2025, 1, 6⟩ [] []
    ⟨"MONDAY", false, ["09:00"]⟩ (by decide) (by decide) (by decide)

/-- C3: For every weekly schedule and every candidate date, the
date-availability predicate returns disabled = true if and only if no
schedule entry matches the date's weekday (`find?` yields nothing) or the
first matching entry has `isAvailable = false`; equivalently it returns
disabled = false exactly when the first matching entry has
`isAvailable = true`. -/
theorem date_unavailable_iff (tz : String) (avail : List DayAvailability)
    (date : CalendarDate) :
    (isDateUnavailable tz avail date = true ↔
      avail.find? (fun a => a.day == dayOfWeekUpper tz date) = none ∨
      ∃ e, avail.find? (fun a => a.day == dayOfWeekUpper tz date) = some e ∧
        e.isAvailable = false) ∧
    (isDateUnavailable tz avail date = false ↔
      ∃ e, avail.find? (fun a => a.day == dayOfWeekUpper tz date) = some e ∧
        e.isAvailable = true) := by
  cases hf : avail.find? (fun a => a.day == dayOfWeekUpper tz date) with
  | none => constructor <;> simp [isDateUnavailable, hf]
  | some e =>
    cases hA : e.isAvailable with
    | false => constructor <;> simp [isDateUnavailable, hf, hA]
    | true => constructor <;> simp [isDateUnavailable, hf, hA]

theorem timeSlots_nil (tz : String) (od : Option CalendarDate) :
    timeSlots tz [] od = [] := by
  cases od with
  | none => rfl
  | some d => rfl

/-- C4: For every date passed to the date-change handler, including a date
equal to the currently selected one, the handler sets the selected slot to
absent (null) before setting the selected date; hence after any date
selection the booking state holds no selected slot.  The third conjunct
records that the date-change handler is exactly what a calendar click
performs. -/
theorem date_selection_clears_slot (st : BookingState) (d : CalendarDate) :
    (handleChangeDate st d).selectedSlot = none ∧
    (handleChangeDate st d).selectedDate = some d ∧
    handleChangeDate st d = setDate (setSlot st none) d ∧
    step st (Event.changeDate d) = handleChangeDate st d :=
  ⟨rfl, rfl, rfl, rfl⟩

/-- C5: When the availability schedule is empty or the fetch has not yet
resolved (`data` is `none`, so the component substitutes the empty
sequence), the slot list computed for any selected date is empty and the
date-availability predicate returns disabled = true for every candidate
date. -/
theorem empty_or_pending_schedule (tz : String) (od : Option CalendarDate)
    (date : CalendarDate) (q : QueryState)
    (h : q.data = none ∨ q.data = some []) :
    timeSlots tz (availabilityOf q) od = [] ∧
    isDateUnavailable tz (availabilityOf q) date = true := by
  have hav : availabilityOf q = [] := by
    rcases h with h | h <;> simp [availabilityOf, h]
  rw [hav]
  exact ⟨timeSlots_nil tz od, isDateUnavailable_of_find_none tz [] date rfl⟩

/-- Witness for C5 at a pending fetch (`data = none`) and a concrete
date. -/
theorem empty_or_pending_schedule_witness :
    timeSlots "UTC" (availabilityOf ⟨none, false, none⟩)
      (some ⟨2025, 1, 6⟩) = [] ∧
    isDateUnavailable "UTC" (availabilityOf ⟨none, false, none⟩)
      ⟨2025, 1, 7⟩ = true :=
  empty_or_pending_schedule "UTC" (some ⟨2025, 1, 6⟩) ⟨2025, 1, 7⟩
    ⟨none, false, none⟩ (Or.inl rfl)

/-- C6: When the availability fetch errors (`isError`, no data), the error
is surfaced verbatim through the `ErrorAlert` collaborator and the
component still renders, with the empty schedule and hence no slot
buttons; and day entries whose `day` field is not one of the seven
weekday names are never matched, so a malformed schedule degrades to an
empty slot list instead of raising an error. -/
theorem fetch_error_handling (q : QueryState) (st : BookingState)
    (tz : String) (od : Option CalendarDate) (avail : List DayAvailability)
    (herr : q.isError = true) (hdata : q.data = none)
    (hmal : ∀ a ∈ avail, a.day ∉ weekdayNames) :
    (render q st).errorAlertIsError = true ∧
    (render q st).errorAlertError = q.error ∧
    (render q st).slotButtonLabels = [] ∧
    timeSlots tz avail od = [] := by
  refine ⟨herr, rfl, ?_, ?_⟩
  · have hav : availabilityOf q = [] := by simp [availabilityOf, hdata]
    simp [render, hav, timeSlots_nil]
  · cases od with
    | none => rfl
    | some d =>
      refine timeSlots_of_no_match tz avail d ?_
      intro a ha hEq
      exact hmal a ha (hEq ▸ dayOfWeekUpper_mem tz d)

/-- Witness for C6: an errored fetch with a concrete error message and a
schedule entry whose day name is not a weekday. -/
theorem fetch_error_handling_witness :
    (render ⟨none, true, some "Network Error"⟩
      ⟨"UTC", "12h", some ⟨2025, 1, 6⟩, none⟩).errorAlertIsError = true ∧
    (render ⟨none, true, some "Network Error"⟩
      ⟨"UTC", "12h", some ⟨2025, 1, 6⟩, none⟩).errorAlertError =
        some "Network Error" ∧
    (render ⟨none, true, some "Network Error"⟩
      ⟨"UTC", "12h", some ⟨2025, 1, 6⟩, none⟩).slotButtonLabels = [] ∧
    timeSlots "UTC" [⟨"FUNDAY", true, ["09:00"]⟩] (some ⟨2025, 1, 6⟩) = [] :=
  fetch_error_handling ⟨none, true, some "Network Error"⟩
    ⟨"UTC", "12h", some ⟨2025, 1, 6⟩, none⟩ "UTC" (some ⟨2025, 1, 6⟩)
    [⟨"FUNDAY", true, ["09:00"]⟩] rfl rfl (by decide)

/-- C7: For the slot inputs "09:00" and "10:00", with timezone UTC and
hour format "12h", the slot formatter produces the display strings
"9:00 AM" and "10:00 AM" respectively. -/
theorem format_slot_examples :
    formatSlot "09:00" "UTC" "12h" = "9:00 AM" ∧
    formatSlot "10:00" "UTC" "12h" = "10:00 AM" :=
  ⟨by decide, by decide⟩

/-- C8: Within this component the selected slot is never transitioned from
present to absent except by a date selection: if the state held a slot and
an event leaves it absent, that event was a date change; and a slot-button
click always stores a present (non-null) slot. -/
theorem no_slot_deselection (st st2 : BookingState) (ev : Event)
    (s s2 : String)
    (hs : st.selectedSlot = some s)
    (hnone : (step st ev).selectedSlot = none) :
    (∃ d, ev = Event.changeDate d) ∧
    (step st2 (Event.clickSlot s2)).selectedSlot = some s2 := by
  refine ⟨?_, rfl⟩
  cases ev with
  | changeDate d => exact ⟨d, rfl⟩
  | clickSlot s3 => simp [step, setSlot] at hnone
  | selectHourType h => simp [step, setHourTypeState, hs] at hnone
  | next => simp [step, hs] at hnone

/-- Witness for C8: from a state holding slot "09:00", the event that
empties the slot is the date change to January 7, 2025; and clicking slot
"10:00" stores it. -/
theorem no_slot_deselection_witness :
    (∃ d, Event.changeDate ⟨2025, 1, 7⟩ = Event.changeDate d) ∧
    (step ⟨"UTC", "12h", none, none⟩
      (Event.clickSlot "10:00")).selectedSlot = some "10:00" :=
  no_slot_deselection ⟨"UTC", "12h", some ⟨2025, 1, 6⟩, some "09:00"⟩
    ⟨"UTC", "12h", none, none⟩ (Event.changeDate ⟨2025, 1, 7⟩)
    "09:00" "10:00" rfl rfl

/-- C9: If the weekly schedule contains more than one entry for the same
weekday, both the slot filter and the date-availability predicate are
governed solely by the first such entry in sequence order (`e`, after a
prefix naming other days): the filter returns `e.slots` and the predicate
tests `e.isAvailable`, whatever later duplicate entries `post` holds. -/
theorem first_duplicate_entry_governs (tz : String) (d : CalendarDate)
    (pre post : List DayAvailability) (e : DayAvailability)
    (hpre : ∀ a ∈ pre, a.day ≠ dayOfWeekUpper tz d)
    (he : e.day = dayOfWeekUpper tz d) :
    timeSlots tz (pre ++ e :: post) (some d) = e.slots ∧
    isDateUnavailable tz (pre ++ e :: post) d = !e.isAvailable := by
  have hfind : (pre ++ e :: post).find?
      (fun a => a.day == dayOfWeekUpper tz d) = some e := by
    refine find?_first _ pre post e ?_ (by simp [he])
    intro a ha
    simp [hpre a ha]
  exact ⟨timeSlots_of_find tz _ d e hfind,
    isDateUnavailable_of_find tz _ d e hfind⟩

/-- Witness for C9: with two Monday entries the first (available, slots
["09:00"]) governs both functions and the later one (unavailable, slots
["22:00"]) is ignored. -/
theorem first_duplicate_entry_governs_witness :
    timeSlots "UTC"
      ([] ++ ⟨"MONDAY", true, ["09:00"]⟩ :: [⟨"MONDAY", false, ["22:00"]⟩])
      (some ⟨2025, 1, 6⟩) = ["09:00"] ∧
    isDateUnavailable "UTC"
      ([] ++ ⟨"MONDAY", true, ["09:00"]⟩ :: [⟨"MONDAY", false, ["22:00"]⟩])
      ⟨2025, 1, 6⟩ = !true :=
  first_duplicate_entry_governs "UTC" ⟨2025, 1, 6⟩ []
    [⟨"MONDAY", false, ["22:00"]⟩] ⟨"MONDAY", true, ["09:00"]⟩
    (by decide) (by decide)

/-- C10: A rendered slot is displayed as selected exactly when the decoded
selected slot equals that slot's formatted display string under the
current timezone and hour format; consequently, when two slots format to
the same display string, clicking the first makes both display as
selected. -/
theorem selected_display_iff (st : BookingState) (s1 s2 slot : String)
    (hfmt : formatSlot s1 st.timezone st.hourType =
      formatSlot s2 st.timezone st.hourType) :
    (slotDisplayedSelected st slot = true ↔
      decodeSlot st.selectedSlot st.timezone st.hourType =
        some (formatSlot slot st.timezone st.hourType)) ∧
    slotDisplayedSelected (step st (Event.clickSlot s1)) s1 = true ∧
    slotDisplayedSelected (step st (Event.clickSlot s1)) s2 = true := by
  refine ⟨?_, ?_, ?_⟩
  · simp [slotDisplayedSelected]
  · simp [slotDisplayedSelected, step, setSlot, decodeSlot]
  · simp [slotDisplayedSelected, step, setSlot, decodeSlot, hfmt]

/-- Witness for C10: "09:00" and "9:00" are distinct slot strings that
both format to "9:00 AM" under UTC/12h, and clicking "09:00" displays both
as selected. -/
theorem selected_display_iff_witness :
    "09:00" ≠ "9:00" ∧
    ((slotDisplayedSelected ⟨"UTC", "12h", none, none⟩ "10:00" = true ↔
        decodeSlot none "UTC" "12h" =
          some (formatSlot "10:00" "UTC" "12h")) ∧
      slotDisplayedSelected
        (step ⟨"UTC", "12h", none, none⟩ (Event.clickSlot "09:00"))
        "09:00" = true ∧
      slotDisplayedSelected
        (step ⟨"UTC", "12h", none, none⟩ (Event.clickSlot "09:00"))
        "9:00" = true) :=
  ⟨by decide,
    selected_display_iff ⟨"UTC", "12h", none, none⟩ "09:00" "9:00" "10:00"
      (by decide)⟩

end BookingCalendar
